import Mathlib

/-!
Shallow embedding of `src/services/geminiService.js` (isaac-levine/image-app).

The service exports one async operation, `applyImageEffect`, backed by a
helper `fetchImageAsBase64`, a custom error class `GeminiError`, and a
process-wide credential `GEMINI_API_KEY` imported from a config module.

Modelling conventions:
- a thrown JavaScript value is an `ErrObj`: either a plain `Error` (only its
  `message` matters to the code) or a `GeminiError` carrying
  `message`, `code`, `originalError`;
- async external behaviour (the HTTP fetch, the `FileReader`, the Gemini
  endpoint, the timer race) is supplied through an explicit environment
  `ApiEnv`; the race between the 60 s timer and the endpoint promise is
  resolved by comparing the endpoint settlement time with the timer delay;
- `applyImageEffect` returns, next to the `Except` outcome, a `CallTrace`
  recording whether the image fetch stage ran and which outbound request (if
  any) was dispatched, so that claims of the form "stage X is never reached"
  are directly statable.
-/

/-- A thrown JavaScript value as the service observes it: either a plain
`Error` (only `message` is inspected) or a `GeminiError` with a `code` and an
optional wrapped `originalError`. -/
inductive ErrObj where
  | jsError (message : String)
  | geminiError (message : String) (code : String) (originalError : Option ErrObj)

/-- `pat` is an initial segment of the second list. -/
def strStarts : List Char → List Char → Bool
  | [], _ => true
  | _ :: _, [] => false
  | p :: ps, c :: cs => p == c && strStarts ps cs

/-- `pat` occurs contiguously somewhere in the list. -/
def strHasSeg (pat : List Char) : List Char → Bool
  | [] => strStarts pat []
  | c :: cs => strStarts pat (c :: cs) || strHasSeg pat cs

/-- JS `String.prototype.includes`: substring containment. -/
def jsIncludes (s pat : String) : Bool :=
  strHasSeg pat.data s.data

/-- JS `String.prototype.toLowerCase` (ASCII range, which covers every
identifier the service compares). -/
def jsToLowerCase (s : String) : String :=
  ⟨s.data.map Char.toLower⟩

/-- JS `String.prototype.trim`: strip whitespace from both ends. -/
def jsTrim (s : String) : String :=
  ⟨((s.data.dropWhile Char.isWhitespace).reverse.dropWhile Char.isWhitespace).reverse⟩

/-- Splitter for JS `String.prototype.split(",")`: cut at every comma. -/
def splitCommaAux : List Char → List Char → List (List Char)
  | [], acc => [acc.reverse]
  | c :: cs, acc =>
    if c = ',' then acc.reverse :: splitCommaAux cs []
    else splitCommaAux cs (c :: acc)

/-- JS `s.split(",")`. -/
def jsSplitComma (s : String) : List String :=
  (splitCommaAux s.data []).map fun cs => ⟨cs⟩

/-- `inlineData` of a response part: `{ mimeType, data }`. -/
structure InlineData where
  mimeType : String
  data : String

/-- One part of a response candidate: may carry text and/or `inlineData`. -/
structure RespPart where
  text : Option String
  inlineData : Option InlineData

/-- `candidate.content`: an ordered list of parts. -/
structure CandContent where
  parts : List RespPart

/-- One response candidate. -/
structure Candidate where
  content : CandContent

/-- The endpoint response: `candidates` may be absent (`undefined`/`null`). -/
structure GenResponse where
  candidates : Option (List Candidate)

/-- The settled value of the endpoint promise: `result.response`. -/
structure GenResult where
  response : GenResponse

/-- `inlineData` of an outbound request part; `data` is `Option` because the
computed base64 payload can be `undefined` when the reader data URL had no
comma. -/
structure ReqInlineData where
  mimeType : String
  data : Option String

/-- One part of the outbound request. -/
structure ReqPart where
  text : Option String
  inlineData : Option ReqInlineData

/-- One `contents` entry of the outbound request. -/
structure ReqContent where
  parts : List ReqPart

/-- `generationConfig` of the outbound request. -/
structure GenerationConfig where
  responseModalities : List String

/-- The argument of `model.generateContent`. -/
structure GenRequest where
  contents : List ReqContent
  generationConfig : GenerationConfig

/-- The request assembled at the dispatch site:
`{ contents: [{ parts: [{text: prompt}, {inlineData: {mimeType: "image/jpeg",
data: imageData}}] }], generationConfig: { responseModalities: ["Text",
"Image"] } }`. -/
def mkRequest (prompt : String) (imageData : Option String) : GenRequest :=
  { contents := [ { parts := [ { text := some prompt, inlineData := none },
                               { text := none,
                                 inlineData := some { mimeType := "image/jpeg",
                                                      data := imageData } } ] } ],
    generationConfig := { responseModalities := ["Text", "Image"] } }

/-- Settlement of the `FileReader` promise built at line 206: `onload` with
`reader.result` (a data URL), or `onerror` with the rejection value. -/
inductive ReaderOutcome where
  | err (e : ErrObj)
  | load (dataUrl : String)

/-- External behaviour of one `fetchImageAsBase64` call: either `fetch`
itself rejects, or it resolves to a response with `ok`/`status`, after which
`response.blob()` either rejects or yields a blob whose reader settles with
a `ReaderOutcome`. -/
inductive FetchOutcome where
  | netFail (e : ErrObj)
  | response (ok : Bool) (status : Nat) (blobRes : Except ErrObj ReaderOutcome)

/-- External behaviour of one `applyImageEffect` call: the credential value
(`none` models an absent `GEMINI_API_KEY`), the fetch behaviour, and the
endpoint promise settlement (time in milliseconds, and settled value). -/
structure ApiEnv where
  apiKey : Option String
  fetch : FetchOutcome
  apiSettleMs : Nat
  apiOutcome : Except ErrObj GenResult

/-- `!GEMINI_API_KEY || GEMINI_API_KEY === "YOUR_API_KEY_HERE"`. -/
def apiKeyInvalid : Option String → Bool
  | none => true
  | some s => s == "" || s == "YOUR_API_KEY_HERE"

/-- The timer delay of the timeout promise: `setTimeout(..., 60000)`. -/
def timeoutMs : Nat := 60000

/-- `Promise.race([apiPromise, timeoutPromise])`: the endpoint settlement is
consumed when it arrives before the 60 s timer fires; otherwise the timer
branch rejects with `Error("Request timed out")`. -/
def raceSettle (apiSettleMs : Nat) (apiOutcome : Except ErrObj GenResult) :
    Except ErrObj GenResult :=
  if apiSettleMs < timeoutMs then apiOutcome
  else .error (.jsError "Request timed out")

/-- `fetchImageAsBase64(uri)`: fetch, check `response.ok`, read the blob as a
data URL, keep `reader.result.split(",")[1]`. The `catch` wraps only the
awaited steps — the fetch, the `!response.ok` throw, and `response.blob()` —
as `IMAGE_CONVERSION_ERROR`; the `FileReader` promise is returned without
`await` (line 206), so an `onerror` rejection settles after the `try` block
has been exited and surfaces to the caller unwrapped. -/
def fetchImageAsBase64 (f : FetchOutcome) : Except ErrObj (Option String) :=
  let tryBody : Except ErrObj ReaderOutcome :=
    match f with
    | .netFail e => .error e
    | .response ok status blobRes =>
      if !ok then
        .error (.jsError ("Failed to fetch image: " ++ toString status))
      else
        blobRes
  match tryBody with
  | .error e =>
    .error (.geminiError
      "Failed to process the image file. The image may be corrupted or too large."
      "IMAGE_CONVERSION_ERROR" (some e))
  | .ok (.err e) => .error e
  | .ok (.load dataUrl) => .ok ((jsSplitComma dataUrl)[1]?)

/-- The prompt construction of `applyImageEffect` (lines 56-82): custom text
verbatim when the lower-cased name is `custom` and `customPrompt` is truthy,
else the `switch` over the lower-cased name. -/
def buildPrompt (effectName customPrompt : String) : String :=
  if jsToLowerCase effectName = "custom" ∧ customPrompt ≠ "" then
    customPrompt
  else
    match jsToLowerCase effectName with
    | "enhance" =>
      "Enhance this image to make it look more professional with better lighting and colors."
    | "style" =>
      "Transform this image into an artistic style, like a painting."
    | "crop" =>
      "Crop and frame this image to focus on the main subject."
    | "adjust" =>
      "Adjust the contrast and brightness of this image to make it look better."
    | _ =>
      "Apply a " ++ effectName ++ " effect to this image."

/-- The first part carrying `inlineData`, as found by the
`for (const part of parts)` loop. -/
def findInlinePart : List RespPart → Option InlineData
  | [] => none
  | p :: rest =>
    match p.inlineData with
    | some d => some d
    | none => findInlinePart rest

/-- Response extraction (lines 110-129): `NO_CANDIDATES` when `candidates`
is absent or empty; otherwise scan the first candidate for `inlineData` and
build the data URI; `NO_IMAGE_RETURNED` when no part carries one. -/
def extractImage (response : GenResponse) : Except ErrObj String :=
  match response.candidates with
  | none =>
    .error (.geminiError "The AI model did not return any results" "NO_CANDIDATES" none)
  | some [] =>
    .error (.geminiError "The AI model did not return any results" "NO_CANDIDATES" none)
  | some (c :: _) =>
    match findInlinePart c.content.parts with
    | some d => .ok ("data:" ++ d.mimeType ++ ";base64," ++ d.data)
    | none =>
      .error (.geminiError "No image was returned from Gemini API" "NO_IMAGE_RETURNED" none)

/-- The outer `catch` of `applyImageEffect` (lines 130-189): `GeminiError`
passes through; otherwise the message text selects network, timeout, rate
limit, auth, or the unknown fallback. -/
def classifyError (error : ErrObj) : ErrObj :=
  match error with
  | .geminiError m c o => .geminiError m c o
  | .jsError msg =>
    if !msg.data.isEmpty && jsIncludes msg "Network Error" then
      .geminiError "Network error. Please check your internet connection."
        "NETWORK_ERROR" (some (.jsError msg))
    else if !msg.data.isEmpty && jsIncludes msg "timed out" then
      .geminiError "Request timed out. The AI service is taking too long to respond."
        "TIMEOUT" (some (.jsError msg))
    else if !msg.data.isEmpty &&
        (jsIncludes msg "quota" || jsIncludes msg "rate limit" || jsIncludes msg "429") then
      .geminiError "API rate limit exceeded. Please try again later."
        "RATE_LIMIT" (some (.jsError msg))
    else if !msg.data.isEmpty &&
        (jsIncludes msg "authentication" || jsIncludes msg "API key" || jsIncludes msg "401") then
      .geminiError "Authentication error. Please check your API key."
        "AUTH_ERROR" (some (.jsError msg))
    else
      .geminiError "An error occurred while processing your image. Please try again."
        "UNKNOWN_ERROR" (some (.jsError msg))

/-- Observability record for one call: whether `fetchImageAsBase64` was
invoked, and the request handed to `model.generateContent`, when any. -/
structure CallTrace where
  fetchInvoked : Bool
  requestSent : Option GenRequest

/-- The `try` body of `applyImageEffect` (lines 23-129): validations in
source order, fetch-and-encode with its `IMAGE_PROCESSING_ERROR` wrapper,
prompt construction, dispatch, timeout race, response extraction. -/
def applyImageEffectBody (env : ApiEnv) (imageUri effectName customPrompt : String) :
    Except ErrObj String × CallTrace :=
  if imageUri = "" then
    (.error (.geminiError "No image provided" "MISSING_IMAGE" none),
     { fetchInvoked := false, requestSent := none })
  else if effectName = "Custom" ∧ jsTrim customPrompt = "" then
    (.error (.geminiError "Custom prompt is empty" "EMPTY_PROMPT" none),
     { fetchInvoked := false, requestSent := none })
  else if apiKeyInvalid env.apiKey then
    (.error (.geminiError "Gemini API key is not configured" "MISSING_API_KEY" none),
     { fetchInvoked := false, requestSent := none })
  else
    match fetchImageAsBase64 env.fetch with
    | .error e =>
      (.error (.geminiError "Failed to process the image. Please try a different image."
         "IMAGE_PROCESSING_ERROR" (some e)),
       { fetchInvoked := true, requestSent := none })
    | .ok imageData =>
      let prompt := buildPrompt effectName customPrompt
      let req := mkRequest prompt imageData
      let t : CallTrace := { fetchInvoked := true, requestSent := some req }
      match raceSettle env.apiSettleMs env.apiOutcome with
      | .error e => (.error e, t)
      | .ok result => (extractImage result.response, t)

/-- `applyImageEffect(imageUri, effectName, customPrompt = "")`: the body
above with every thrown error routed through the outer `catch` classifier. -/
def applyImageEffect (env : ApiEnv) (imageUri effectName : String)
    (customPrompt : String := "") : Except ErrObj String × CallTrace :=
  let r := applyImageEffectBody env imageUri effectName customPrompt
  ((match r.1 with
    | .ok v => .ok v
    | .error e => .error (classifyError e)), r.2)

/-- A response part carrying an inline PNG payload. -/
def pngPart : RespPart :=
  { text := none, inlineData := some { mimeType := "image/png", data := "AAAA" } }

/-- A response with one candidate whose only part is the PNG payload. -/
def okResponse : GenResponse :=
  { candidates := some [ { content := { parts := [pngPart] } } ] }

/-- A fetch that succeeds: HTTP 200 and a well-formed reader data URL. -/
def fetchOk : FetchOutcome :=
  .response true 200 (.ok (.load "data:image/jpeg;base64,QUJD"))

/-- An environment where every external stage succeeds promptly. -/
def envOk : ApiEnv :=
  { apiKey := some "k", fetch := fetchOk, apiSettleMs := 10000,
    apiOutcome := .ok { response := okResponse } }

/-- Like `envOk` but the endpoint settles after the 60 s timer. -/
def envSlow : ApiEnv :=
  { envOk with apiSettleMs := 61000 }

/-- Like `envOk` but the `FileReader` reports `onerror`. -/
def envDecodeFail : ApiEnv :=
  { envOk with fetch := .response true 200 (.ok (.err (.jsError "read error"))) }

/-- Like `envOk` but the HTTP retrieval reports status 404. -/
def envHttpFail : ApiEnv :=
  { envOk with fetch := .response false 404 (.ok (.load "data:image/jpeg;base64,QUJD")) }

/-- Like `envOk` but the credential is absent. -/
def envNoKey : ApiEnv :=
  { envOk with apiKey := none }

/-- Like `envOk` but the credential is the placeholder sentinel. -/
def envPlaceholderKey : ApiEnv :=
  { envOk with apiKey := some "YOUR_API_KEY_HERE" }

/-- When the endpoint settles before the timer delay, the race consumes the
endpoint settlement. -/
theorem raceSettle_api (a : Nat) (o : Except ErrObj GenResult) (h : a < timeoutMs) :
    raceSettle a o = o := by
  unfold raceSettle
  rw [if_pos h]

/-- When the endpoint settles after the timer delay, the race consumes the
timer rejection. -/
theorem raceSettle_timer (a : Nat) (o : Except ErrObj GenResult) (h : timeoutMs < a) :
    raceSettle a o = .error (.jsError "Request timed out") := by
  unfold raceSettle
  rw [if_neg (by omega)]

/-- Every error produced by `extractImage` is a `GeminiError`, so the outer
classifier leaves it unchanged. -/
theorem extractImage_error_gemini (resp : GenResponse) (e : ErrObj)
    (h : extractImage resp = .error e) : classifyError e = e := by
  unfold extractImage at h
  split at h
  · cases h
    rfl
  · cases h
    rfl
  · split at h
    · exact absurd h (by simp)
    · cases h
      rfl

/-- Once the three validations pass and the fetch succeeds, the body reduces
to the race followed by extraction, with the assembled request recorded in
the trace. -/
theorem applyBody_dispatch (env : ApiEnv) (uri en cp : String) (d : Option String)
    (h1 : uri ≠ "") (h2 : ¬(en = "Custom" ∧ jsTrim cp = ""))
    (h3 : apiKeyInvalid env.apiKey = false)
    (hf : fetchImageAsBase64 env.fetch = .ok d) :
    applyImageEffectBody env uri en cp =
      ((match raceSettle env.apiSettleMs env.apiOutcome with
        | .error e => .error e
        | .ok result => extractImage result.response),
       { fetchInvoked := true, requestSent := some (mkRequest (buildPrompt en cp) d) }) := by
  have h3h : ¬(apiKeyInvalid env.apiKey = true) := by simp [h3]
  unfold applyImageEffectBody
  rw [if_neg h1, if_neg h2, if_neg h3h, hf]
  rcases raceSettle env.apiSettleMs env.apiOutcome with e | r
  · rfl
  · rfl

/-- Once the three validations pass and the fetch succeeds, the whole call
reduces to the race followed by extraction, every error routed through the
classifier, with the assembled request recorded in the trace. -/
theorem applyImageEffect_dispatch (env : ApiEnv) (uri en cp : String) (d : Option String)
    (h1 : uri ≠ "") (h2 : ¬(en = "Custom" ∧ jsTrim cp = ""))
    (h3 : apiKeyInvalid env.apiKey = false)
    (hf : fetchImageAsBase64 env.fetch = .ok d) :
    applyImageEffect env uri en cp =
      ((match raceSettle env.apiSettleMs env.apiOutcome with
        | .error e => .error (classifyError e)
        | .ok result =>
          match extractImage result.response with
          | .ok v => .ok v
          | .error e => .error (classifyError e)),
       { fetchInvoked := true, requestSent := some (mkRequest (buildPrompt en cp) d) }) := by
  unfold applyImageEffect
  rw [applyBody_dispatch env uri en cp d h1 h2 h3 hf]
  rcases raceSettle env.apiSettleMs env.apiOutcome with e | r
  · rfl
  · rfl

/-- C1 (counterexample): with effect name `"custom"` (lower case, which
case-insensitively denotes custom) and an empty prompt, the call does not
fail with `EMPTY_PROMPT`: it invokes the fetch stage and succeeds, because
the source guards the empty-prompt check with the case-sensitive comparison
`effectName === "Custom"`. -/
theorem custom_lowercase_empty_prompt_reaches_network :
    jsToLowerCase "custom" = "custom" ∧ jsTrim "" = "" ∧
    (applyImageEffect envOk "file:///a.jpg" "custom" "").1 =
      .ok "data:image/png;base64,AAAA" ∧
    (applyImageEffect envOk "file:///a.jpg" "custom" "").2.fetchInvoked = true :=
  ⟨rfl, rfl, rfl, rfl⟩

/-- C1 (amended): when the effect name is exactly `"Custom"` (case-sensitive)
and the custom prompt trims to empty, the call fails with `EMPTY_PROMPT` in
every environment, without invoking the image fetch or dispatching any
request. -/
theorem custom_exact_empty_prompt_fails_early (env : ApiEnv) (uri cp : String)
    (h1 : uri ≠ "") (h2 : jsTrim cp = "") :
    applyImageEffect env uri "Custom" cp =
      (.error (.geminiError "Custom prompt is empty" "EMPTY_PROMPT" none),
       { fetchInvoked := false, requestSent := none }) := by
  unfold applyImageEffect applyImageEffectBody
  rw [if_neg h1, if_pos ⟨rfl, h2⟩]
  rfl

/-- C1 (witness): the amended statement at a concrete whitespace-only
prompt. -/
theorem custom_exact_empty_prompt_fails_early_inst :
    applyImageEffect envOk "file:///a.jpg" "Custom" "   " =
      (.error (.geminiError "Custom prompt is empty" "EMPTY_PROMPT" none),
       { fetchInvoked := false, requestSent := none }) :=
  custom_exact_empty_prompt_fails_early envOk "file:///a.jpg" "   " (by decide) (by decide)

/-- C4: when the first two validations pass and the credential is absent or
the placeholder sentinel, the call fails with `MISSING_API_KEY` and the
image fetcher is never invoked, no request dispatched. -/
theorem invalid_key_blocks_fetch (env : ApiEnv) (uri en cp : String)
    (h1 : uri ≠ "") (h2 : ¬(en = "Custom" ∧ jsTrim cp = ""))
    (h3 : apiKeyInvalid env.apiKey = true) :
    applyImageEffect env uri en cp =
      (.error (.geminiError "Gemini API key is not configured" "MISSING_API_KEY" none),
       { fetchInvoked := false, requestSent := none }) := by
  unfold applyImageEffect applyImageEffectBody
  rw [if_neg h1, if_neg h2, if_pos h3]
  rfl

/-- C4 (witness): concrete call with an absent credential. -/
theorem invalid_key_blocks_fetch_inst :
    applyImageEffect envNoKey "file:///a.jpg" "Enhance" "" =
      (.error (.geminiError "Gemini API key is not configured" "MISSING_API_KEY" none),
       { fetchInvoked := false, requestSent := none }) :=
  invalid_key_blocks_fetch envNoKey "file:///a.jpg" "Enhance" "" (by decide) (by decide) rfl

/-- C9: omitting the `customPrompt` argument is the same call as passing the
default `""`, and with effect name `"Custom"` it fails with `EMPTY_PROMPT`
rather than misbehaving on a missing value. -/
theorem omitted_prompt_defaults_to_empty (env : ApiEnv) (uri : String) (h : uri ≠ "") :
    applyImageEffect env uri "Custom" = applyImageEffect env uri "Custom" "" ∧
    (applyImageEffect env uri "Custom").1 =
      .error (.geminiError "Custom prompt is empty" "EMPTY_PROMPT" none) := by
  refine ⟨rfl, ?_⟩
  unfold applyImageEffect applyImageEffectBody
  rw [if_neg h, if_pos ⟨rfl, rfl⟩]
  rfl

/-- C9 (witness): concrete call omitting the prompt argument. -/
theorem omitted_prompt_defaults_to_empty_inst :
    (applyImageEffect envOk "file:///a.jpg" "Custom").1 =
      .error (.geminiError "Custom prompt is empty" "EMPTY_PROMPT" none) :=
  (omitted_prompt_defaults_to_empty envOk "file:///a.jpg" (by decide)).2

/-- C10: the validations run in source order: an empty source URI always
yields `MISSING_IMAGE`, whatever the effect, prompt, or environment; and
with a non-empty URI, effect `"Custom"`, and a blank prompt the failure is
`EMPTY_PROMPT` even when the credential is also invalid. -/
theorem validation_check_order (env : ApiEnv) (en cp uri : String) :
    applyImageEffect env "" en cp =
      (.error (.geminiError "No image provided" "MISSING_IMAGE" none),
       { fetchInvoked := false, requestSent := none }) ∧
    (uri ≠ "" → jsTrim cp = "" →
      applyImageEffect env uri "Custom" cp =
        (.error (.geminiError "Custom prompt is empty" "EMPTY_PROMPT" none),
         { fetchInvoked := false, requestSent := none })) := by
  constructor
  · rfl
  · intro h1 h2
    unfold applyImageEffect applyImageEffectBody
    rw [if_neg h1, if_pos ⟨rfl, h2⟩]
    rfl

/-- C10 (witness): both orderings at concrete inputs, with an invalid
(placeholder) credential in scope in each case. -/
theorem validation_check_order_inst :
    applyImageEffect envPlaceholderKey "" "Enhance" "x" =
      (.error (.geminiError "No image provided" "MISSING_IMAGE" none),
       { fetchInvoked := false, requestSent := none }) ∧
    applyImageEffect envPlaceholderKey "file:///a.jpg" "Custom" " " =
      (.error (.geminiError "Custom prompt is empty" "EMPTY_PROMPT" none),
       { fetchInvoked := false, requestSent := none }) :=
  ⟨(validation_check_order envPlaceholderKey "Enhance" "x" "file:///a.jpg").1,
   (validation_check_order envPlaceholderKey "Custom" " " "file:///a.jpg").2
     (by decide) (by decide)⟩

/-- C6: for each canned effect name written in any letter casing, the prompt
builder returns exactly that effect's fixed instruction sentence, and the
four sentences are pairwise distinct. -/
theorem prompt_builder_canned_sentences (en cp : String) :
    (jsToLowerCase en = "enhance" → buildPrompt en cp =
      "Enhance this image to make it look more professional with better lighting and colors.") ∧
    (jsToLowerCase en = "style" → buildPrompt en cp =
      "Transform this image into an artistic style, like a painting.") ∧
    (jsToLowerCase en = "crop" → buildPrompt en cp =
      "Crop and frame this image to focus on the main subject.") ∧
    (jsToLowerCase en = "adjust" → buildPrompt en cp =
      "Adjust the contrast and brightness of this image to make it look better.") ∧
    List.Pairwise (fun a b => a ≠ b)
      ["Enhance this image to make it look more professional with better lighting and colors.",
       "Transform this image into an artistic style, like a painting.",
       "Crop and frame this image to focus on the main subject.",
       "Adjust the contrast and brightness of this image to make it look better."] := by
  refine ⟨?_, ?_, ?_, ?_, by decide⟩ <;>
    (intro h
     unfold buildPrompt
     rw [h, if_neg]
     · rfl
     · rintro ⟨hcontra, -⟩
       exact absurd hcontra (by decide))

/-- C6 (witness): the four canned names in mixed casing. -/
theorem prompt_builder_canned_sentences_inst :
    buildPrompt "EnHaNcE" "" =
      "Enhance this image to make it look more professional with better lighting and colors." ∧
    buildPrompt "STYLE" "" =
      "Transform this image into an artistic style, like a painting." ∧
    buildPrompt "Crop" "" =
      "Crop and frame this image to focus on the main subject." ∧
    buildPrompt "aDJuSt" "" =
      "Adjust the contrast and brightness of this image to make it look better." :=
  ⟨(prompt_builder_canned_sentences "EnHaNcE" "").1 (by decide),
   (prompt_builder_canned_sentences "STYLE" "").2.1 (by decide),
   (prompt_builder_canned_sentences "Crop" "").2.2.1 (by decide),
   (prompt_builder_canned_sentences "aDJuSt" "").2.2.2.1 (by decide)⟩

/-- C8: an error already carrying a classified kind passes through the
classifier with the same message, code, and cause, and re-classification of
any classified error is a fixed point (idempotence). -/
theorem classifier_preclassified_idempotent :
    (∀ m c o, classifyError (.geminiError m c o) = .geminiError m c o) ∧
    (∀ e, classifyError (classifyError e) = classifyError e) := by
  constructor
  · intro m c o
    rfl
  · intro e
    cases e with
    | geminiError m c o => rfl
    | jsError msg =>
      simp only [classifyError]
      split_ifs <;> rfl

/-- C2 (counterexample): fetching succeeds at the transport level (HTTP 200)
and reading the payload fails (`FileReader` `onerror`), yet the call fails
with kind `IMAGE_PROCESSING_ERROR`, not `IMAGE_CONVERSION_ERROR`: the raw
reader rejection bypasses the helper's catch (the reader promise is returned
without `await`) and is wrapped only by the `IMAGE_PROCESSING_ERROR` layer
in `applyImageEffect`. -/
theorem decode_failure_not_conversion_kind :
    (applyImageEffect envDecodeFail "file:///a.jpg" "Enhance" "").1 =
      .error (.geminiError "Failed to process the image. Please try a different image."
        "IMAGE_PROCESSING_ERROR" (some (.jsError "read error"))) ∧
    "IMAGE_PROCESSING_ERROR" ≠ "IMAGE_CONVERSION_ERROR" :=
  ⟨rfl, by decide⟩

/-- C2 (amended): every fetch-stage failure surfaces from the call with kind
`IMAGE_PROCESSING_ERROR`. The kinds differ only in the cause chain: a
`FileReader` read failure after a transport-level success escapes the
helper's catch as an un-awaited promise rejection, so its cause is the raw
reader error; a non-success retrieval status — like a fetch or blob
rejection, which the helper's catch does intercept — carries an
`IMAGE_CONVERSION_ERROR` layer as the wrapped cause. -/
theorem fetch_failures_surface_as_processing (env : ApiEnv) (uri en cp : String)
    (h1 : uri ≠ "") (h2 : ¬(en = "Custom" ∧ jsTrim cp = ""))
    (h3 : apiKeyInvalid env.apiKey = false) :
    (∀ status e, env.fetch = .response true status (.ok (.err e)) →
      (applyImageEffect env uri en cp).1 =
        .error (.geminiError "Failed to process the image. Please try a different image."
          "IMAGE_PROCESSING_ERROR" (some e))) ∧
    (∀ status blobRes, env.fetch = .response false status blobRes →
      (applyImageEffect env uri en cp).1 =
        .error (.geminiError "Failed to process the image. Please try a different image."
          "IMAGE_PROCESSING_ERROR"
          (some (.geminiError
            "Failed to process the image file. The image may be corrupted or too large."
            "IMAGE_CONVERSION_ERROR"
            (some (.jsError ("Failed to fetch image: " ++ toString status))))))) ∧
    (∀ status e, env.fetch = .response true status (.error e) →
      (applyImageEffect env uri en cp).1 =
        .error (.geminiError "Failed to process the image. Please try a different image."
          "IMAGE_PROCESSING_ERROR"
          (some (.geminiError
            "Failed to process the image file. The image may be corrupted or too large."
            "IMAGE_CONVERSION_ERROR" (some e))))) := by
  have h3h : ¬(apiKeyInvalid env.apiKey = true) := by simp [h3]
  refine ⟨?_, ?_, ?_⟩ <;>
    (intro status e hfe
     unfold applyImageEffect applyImageEffectBody
     rw [if_neg h1, if_neg h2, if_neg h3h, hfe]
     rfl)

/-- C2 (witness): the amended statement at a concrete 404 retrieval and at a
concrete reader failure. -/
theorem fetch_failures_surface_as_processing_inst :
    (applyImageEffect envHttpFail "file:///a.jpg" "Enhance" "").1 =
      .error (.geminiError "Failed to process the image. Please try a different image."
        "IMAGE_PROCESSING_ERROR"
        (some (.geminiError
          "Failed to process the image file. The image may be corrupted or too large."
          "IMAGE_CONVERSION_ERROR"
          (some (.jsError ("Failed to fetch image: " ++ toString (404 : Nat))))))) ∧
    (applyImageEffect envDecodeFail "file:///a.jpg" "Enhance" "").1 =
      .error (.geminiError "Failed to process the image. Please try a different image."
        "IMAGE_PROCESSING_ERROR" (some (.jsError "read error"))) :=
  ⟨(fetch_failures_surface_as_processing envHttpFail "file:///a.jpg" "Enhance" ""
      (by decide) (by decide) rfl).2.1 404 (.ok (.load "data:image/jpeg;base64,QUJD")) rfl,
   (fetch_failures_surface_as_processing envDecodeFail "file:///a.jpg" "Enhance" ""
      (by decide) (by decide) rfl).1 200 (.jsError "read error") rfl⟩

/-- C5: once the request is dispatched, its outcome is decided by the race
against the 60000 ms timer and exactly one branch is consumed: if the timer
fires first the call fails with `TIMEOUT`; if the endpoint settles first
with a response, that response proceeds to extraction. -/
theorem timeout_race_single_consumption (env : ApiEnv) (uri en cp : String)
    (d : Option String)
    (h1 : uri ≠ "") (h2 : ¬(en = "Custom" ∧ jsTrim cp = ""))
    (h3 : apiKeyInvalid env.apiKey = false)
    (hf : fetchImageAsBase64 env.fetch = .ok d) :
    timeoutMs = 60000 ∧
    (timeoutMs < env.apiSettleMs →
      (applyImageEffect env uri en cp).1 =
        .error (.geminiError
          "Request timed out. The AI service is taking too long to respond."
          "TIMEOUT" (some (.jsError "Request timed out")))) ∧
    (∀ r, env.apiSettleMs < timeoutMs → env.apiOutcome = .ok r →
      (applyImageEffect env uri en cp).1 = extractImage r.response) := by
  refine ⟨rfl, ?_, ?_⟩
  · intro hs
    rw [applyImageEffect_dispatch env uri en cp d h1 h2 h3 hf,
      raceSettle_timer _ _ hs]
    rfl
  · intro r hs ho
    rw [applyImageEffect_dispatch env uri en cp d h1 h2 h3 hf,
      raceSettle_api _ _ hs, ho]
    show (match extractImage r.response with
          | Except.ok v => (Except.ok v : Except ErrObj String)
          | Except.error e => Except.error (classifyError e)) = extractImage r.response
    rcases he : extractImage r.response with e | v
    · show Except.error (classifyError e) = Except.error e
      rw [extractImage_error_gemini r.response e he]
    · rfl

/-- C5 (witness): both race outcomes at concrete environments, one with the
endpoint settling at 61 s (timer wins), one at 10 s (endpoint wins). -/
theorem timeout_race_single_consumption_inst :
    (applyImageEffect envSlow "file:///a.jpg" "Enhance" "").1 =
      .error (.geminiError
        "Request timed out. The AI service is taking too long to respond."
        "TIMEOUT" (some (.jsError "Request timed out"))) ∧
    (applyImageEffect envOk "file:///a.jpg" "Enhance" "").1 =
      extractImage okResponse :=
  ⟨(timeout_race_single_consumption envSlow "file:///a.jpg" "Enhance" "" (some "QUJD")
      (by decide) (by decide) rfl rfl).2.1 (by decide),
   (timeout_race_single_consumption envOk "file:///a.jpg" "Enhance" "" (some "QUJD")
      (by decide) (by decide) rfl rfl).2.2 { response := okResponse } (by decide) rfl⟩

/-- C7 (counterexample): with effect `"Custom"` and the prompt
`" make it pop "` (non-empty after trimming), the request dispatched to the
endpoint carries the untrimmed text, which differs from the trimmed text the
claim prescribes. -/
theorem custom_prompt_not_trimmed :
    jsTrim " make it pop " = "make it pop" ∧
    (applyImageEffect envOk "file:///a.jpg" "Custom" " make it pop ").2.requestSent =
      some (mkRequest " make it pop " (some "QUJD")) ∧
    " make it pop " ≠ "make it pop" :=
  ⟨rfl, rfl, by decide⟩

/-- C7 (amended): when the effect name case-insensitively denotes custom and
the prompt is non-empty after trimming, the instruction sent to the endpoint
is the `customPrompt` argument verbatim — untrimmed. -/
theorem custom_prompt_sent_verbatim (env : ApiEnv) (uri en cp : String)
    (d : Option String)
    (h0 : jsToLowerCase en = "custom") (h1 : uri ≠ "") (h2 : jsTrim cp ≠ "")
    (h3 : apiKeyInvalid env.apiKey = false)
    (hf : fetchImageAsBase64 env.fetch = .ok d) :
    (applyImageEffect env uri en cp).2.requestSent = some (mkRequest cp d) := by
  have hcp : cp ≠ "" := by
    intro hh
    rw [hh] at h2
    exact h2 rfl
  have h2h : ¬(en = "Custom" ∧ jsTrim cp = "") := by
    rintro ⟨-, hh⟩
    exact h2 hh
  rw [applyImageEffect_dispatch env uri en cp d h1 h2h h3 hf]
  show some (mkRequest (buildPrompt en cp) d) = some (mkRequest cp d)
  unfold buildPrompt
  rw [if_pos ⟨h0, hcp⟩]

/-- C7 (witness): the amended statement at a concrete mixed-case name and a
prompt with surrounding whitespace. -/
theorem custom_prompt_sent_verbatim_inst :
    (applyImageEffect envOk "file:///a.jpg" "cUsToM" " x ").2.requestSent =
      some (mkRequest " x " (some "QUJD")) :=
  custom_prompt_sent_verbatim envOk "file:///a.jpg" "cUsToM" " x " (some "QUJD")
    (by decide) (by decide) (by decide) rfl rfl

/-- The scanning loop returns the `inlineData` of the first part that
carries one. -/
theorem findInlinePart_first (parts : List RespPart) :
    findInlinePart parts =
      (parts.find? fun p => p.inlineData.isSome).bind fun p => p.inlineData := by
  induction parts with
  | nil => rfl
  | cons p rest ih =>
    rcases hp : p.inlineData with _ | d2
    · simp [findInlinePart, List.find?, hp, ih]
    · simp [findInlinePart, List.find?, hp]

/-- C3: for a response consumed by the call, absent or empty `candidates`
yields `NO_CANDIDATES`; when the first candidate has a part with inline
data, the result is exactly the data URI built from the first such part;
when no part carries inline data, the call fails with `NO_IMAGE_RETURNED`. -/
theorem response_extraction_contract (env : ApiEnv) (uri en cp : String)
    (d : Option String) (resp : GenResponse)
    (h1 : uri ≠ "") (h2 : ¬(en = "Custom" ∧ jsTrim cp = ""))
    (h3 : apiKeyInvalid env.apiKey = false)
    (hf : fetchImageAsBase64 env.fetch = .ok d)
    (ht : env.apiSettleMs < timeoutMs)
    (ho : env.apiOutcome = .ok { response := resp }) :
    ((resp.candidates = none ∨ resp.candidates = some []) →
      (applyImageEffect env uri en cp).1 =
        .error (.geminiError "The AI model did not return any results"
          "NO_CANDIDATES" none)) ∧
    (∀ c rest dd, resp.candidates = some (c :: rest) →
      findInlinePart c.content.parts = some dd →
      (applyImageEffect env uri en cp).1 =
        .ok ("data:" ++ dd.mimeType ++ ";base64," ++ dd.data)) ∧
    (∀ c rest, resp.candidates = some (c :: rest) →
      findInlinePart c.content.parts = none →
      (applyImageEffect env uri en cp).1 =
        .error (.geminiError "No image was returned from Gemini API"
          "NO_IMAGE_RETURNED" none)) ∧
    (∀ parts, findInlinePart parts =
      (parts.find? fun p => p.inlineData.isSome).bind fun p => p.inlineData) := by
  have base : (applyImageEffect env uri en cp).1 =
      (match extractImage resp with
       | .ok v => Except.ok v
       | .error e => Except.error (classifyError e)) := by
    rw [applyImageEffect_dispatch env uri en cp d h1 h2 h3 hf,
      raceSettle_api _ _ ht, ho]
  refine ⟨?_, ?_, ?_, findInlinePart_first⟩
  · intro hc
    rw [base]
    unfold extractImage
    rcases hc with hc | hc <;> (rw [hc]; rfl)
  · intro c rest dd hc hfind
    rw [base]
    unfold extractImage
    rw [hc]
    show (match (match findInlinePart c.content.parts with
                 | some dd =>
                   Except.ok ("data:" ++ dd.mimeType ++ ";base64," ++ dd.data)
                 | none =>
                   Except.error (.geminiError "No image was returned from Gemini API"
                     "NO_IMAGE_RETURNED" none)) with
          | Except.ok v => (Except.ok v : Except ErrObj String)
          | Except.error e => Except.error (classifyError e)) = _
    rw [hfind]
  · intro c rest hc hfind
    rw [base]
    unfold extractImage
    rw [hc]
    show (match (match findInlinePart c.content.parts with
                 | some dd =>
                   Except.ok ("data:" ++ dd.mimeType ++ ";base64," ++ dd.data)
                 | none =>
                   Except.error (.geminiError "No image was returned from Gemini API"
                     "NO_IMAGE_RETURNED" none)) with
          | Except.ok v => (Except.ok v : Except ErrObj String)
          | Except.error e => Except.error (classifyError e)) = _
    rw [hfind]
    rfl

/-- C3 (witness): the spec example — one candidate whose only part carries
`inlineData = {mimeType: "image/png", data: "AAAA"}` yields exactly
`"data:image/png;base64,AAAA"`. -/
theorem response_extraction_contract_inst :
    (applyImageEffect envOk "file:///a.jpg" "Enhance" "").1 =
      .ok ("data:" ++ "image/png" ++ ";base64," ++ "AAAA") :=
  (response_extraction_contract envOk "file:///a.jpg" "Enhance" "" (some "QUJD")
      okResponse (by decide) (by decide) rfl rfl (by decide) rfl).2.1
    { content := { parts := [pngPart] } } []
    { mimeType := "image/png", data := "AAAA" } rfl rfl
